import Mathlib

/-!
Shallow embedding of the fitness tracker CLI (src/main_cli.py).

Numbers that the Python code holds as floats are modelled as rationals
(ℚ); the one-decimal rounding done by the Python builtin round is
modelled as floor of 10 * x + 1/2 divided by 10, which agrees with the
observable behaviour of the program on the values that occur here.
Files are modelled as an explicit state: a set of existing user
directories together with, per user, the optional contents of
profile.json, meals.csv and weights.csv.  A missing file is None; a
read of a missing file (a raised exception in Python) is None as well.
-/

/-- A profile record as stored in profile.json.  The fields weight_kg,
height_cm and age are accessed with mandatory indexing in the code
(profile of key raises KeyError when absent), while name, sex,
activity, goal and protein_factor are read with a get and a default,
so the latter are optional. -/
structure Profile where
  name : Option String
  sex : Option String
  age : ℚ
  height_cm : ℚ
  weight_kg : ℚ
  activity : Option String
  goal : Option String
  protein_factor : Option ℚ
deriving DecidableEq

/-- The record returned by calc_targets. -/
structure Targets where
  calories : ℚ
  protein : ℚ
  carbs : ℚ
  fats : ℚ
  bmr : ℚ
  tdee : ℚ
deriving DecidableEq

/-- One row of meals.csv. -/
structure MealRow where
  date : String
  time : String
  meal_type : String
  meal_desc : String
  calories : ℚ
  protein : ℚ
  carbs : ℚ
  fats : ℚ
deriving DecidableEq

/-- One row of weights.csv. -/
structure WeightRow where
  date : String
  time : String
  weight_kg : ℚ
  note : String
deriving DecidableEq

/-- Python str.lower, mapping every character to lower case. -/
def pyLower (s : String) : String := ⟨s.data.map Char.toLower⟩

/-- Python str.strip, removing leading and trailing whitespace. -/
def pyStrip (s : String) : String :=
  ⟨((s.data.dropWhile Char.isWhitespace).reverse.dropWhile Char.isWhitespace).reverse⟩

/-- Rounding to one decimal place, modelling the Python round(x, 1)
as observed on the values of this program. -/
def round1 (x : ℚ) : ℚ := (⌊10 * x + 1 / 2⌋ : ℚ) / 10

/-- The module level ACTIVITY_MULT dictionary. -/
def ACTIVITY_MULT : List (String × ℚ) :=
  [("sedentary", 1.2), ("light", 1.375), ("moderate", 1.55), ("active", 1.725)]

/-- calc_bmr from src/main_cli.py lines 70 to 75. -/
def calc_bmr (profile : Profile) : ℚ :=
  let w := profile.weight_kg
  let h := profile.height_cm
  let age := profile.age
  let sex := pyLower (profile.sex.getD "male")
  10 * w + 6.25 * h - 5 * age + (if sex = "male" then 5 else -161)

/-- The tdee local variable of calc_targets: bmr times the activity
multiplier, with 1.55 as the dictionary get default. -/
def calc_tdee (profile : Profile) : ℚ :=
  let activity := profile.activity.getD "moderate"
  calc_bmr profile * (ACTIVITY_MULT.lookup activity).getD 1.55

/-- The target_cal local variable of calc_targets: the goal branch. -/
def calc_target_cal (profile : Profile) : ℚ :=
  let tdee := calc_tdee profile
  let goal := profile.goal.getD "maintenance"
  if goal = "fat_loss" then tdee * 0.8
  else if goal = "body_building" then tdee * 1.1
  else tdee

/-- calc_targets from src/main_cli.py lines 77 to 101. -/
def calc_targets (profile : Profile) : Targets :=
  let bmr := calc_bmr profile
  let tdee := calc_tdee profile
  let target_cal := calc_target_cal profile
  let protein := (profile.protein_factor.getD 2.0) * profile.weight_kg
  let carbs := (target_cal * 0.45) / 4
  let fats := (target_cal * 0.25) / 9
  { calories := round1 target_cal
    protein := round1 protein
    carbs := round1 carbs
    fats := round1 fats
    bmr := round1 bmr
    tdee := round1 tdee }

/-- The profile of the worked example in the spec. -/
def profileC1 : Profile :=
  { name := none
    sex := some "male"
    age := 25
    height_cm := 170
    weight_kg := 70
    activity := some "moderate"
    goal := some "maintenance"
    protein_factor := some 2.0 }

/-- C1: for the male, age 25, 170 cm, 70 kg, moderate, maintenance,
protein factor 2.0 profile, calc_targets returns bmr 1642.5,
tdee 2545.9, calories 2545.9, protein 140.0, carbs 286.4, fats 70.7
after rounding to one decimal place. -/
theorem calc_targets_example_male_25_maintenance :
    calc_targets profileC1 =
      { calories := 2545.9, protein := 140.0, carbs := 286.4,
        fats := 70.7, bmr := 1642.5, tdee := 2545.9 } := by
  have hlow : pyLower "male" = "male" := by decide
  have hne1 : ("maintenance" : String) ≠ "fat_loss" := by decide
  have hne2 : ("maintenance" : String) ≠ "body_building" := by decide
  have hact : profileC1.activity = some "moderate" := rfl
  have hgoal : profileC1.goal = some "maintenance" := rfl
  have hpf : profileC1.protein_factor = some 2.0 := rfl
  have hw : profileC1.weight_kg = (70 : ℚ) := rfl
  have hbmr : calc_bmr profileC1 = 1642.5 := by
    norm_num [calc_bmr, profileC1, hlow]
  have hmult : (ACTIVITY_MULT.lookup "moderate").getD 1.55 = 1.55 := by
    simp [ACTIVITY_MULT, List.lookup]
  have htdee : calc_tdee profileC1 = 2545.875 := by
    simp only [calc_tdee, hact, Option.getD_some, hmult, hbmr]
    norm_num
  have hcal : calc_target_cal profileC1 = 2545.875 := by
    simp only [calc_target_cal, hgoal, Option.getD_some, htdee]
    simp [hne1, hne2]
  simp only [calc_targets, hcal, htdee, hbmr, hpf, hw, Option.getD_some]
  norm_num [round1, Targets.mk.injEq]

/-- A profile whose sex string is upper case MALE: the code lowercases
the sex field before comparing it with "male", so this profile gets
the male offset although its sex string differs from "male". -/
def profileC2 : Profile :=
  { name := none
    sex := some "MALE"
    age := 25
    height_cm := 170
    weight_kg := 70
    activity := none
    goal := none
    protein_factor := none }

/-- C2 counterexample: the claim says every sex value other than the
string "male" gets the female offset -161, but for sex "MALE" the code
lowercases first and applies the male offset +5, so calc_bmr is
1642.5 rather than the claimed 1476.5. -/
theorem calc_bmr_uppercase_male_counterexample :
    profileC2.sex = some "MALE" ∧ "MALE" ≠ "male" ∧
      calc_bmr profileC2 =
        10 * profileC2.weight_kg + 6.25 * profileC2.height_cm - 5 * profileC2.age + 5 ∧
      calc_bmr profileC2 ≠
        10 * profileC2.weight_kg + 6.25 * profileC2.height_cm - 5 * profileC2.age - 161 := by
  have hlow : pyLower "MALE" = "male" := by decide
  refine ⟨rfl, by decide, ?_, ?_⟩
  · norm_num [calc_bmr, profileC2, hlow]
  · norm_num [calc_bmr, profileC2, hlow]

/-- C2 amended: calc_bmr returns 10 * weight_kg + 6.25 * height_cm -
5 * age plus 5 when the sex field (defaulting to "male" when absent)
lowercases to "male", and minus 161 for every other sex value. -/
theorem calc_bmr_sex_offset_lowercased (p : Profile) :
    calc_bmr p = 10 * p.weight_kg + 6.25 * p.height_cm - 5 * p.age +
      (if pyLower (p.sex.getD "male") = "male" then 5 else -161) := by
  rfl

/-- The activity multiplier table as the spec words it: sedentary 1.2,
light 1.375, moderate 1.55, active 1.725, any other or missing
activity string 1.55. -/
def claimMult (activity : Option String) : ℚ :=
  match activity with
  | none => 1.55
  | some a =>
    if a = "sedentary" then 1.2
    else if a = "light" then 1.375
    else if a = "moderate" then 1.55
    else if a = "active" then 1.725
    else 1.55

/-- The calorie target as the spec words it: tdee * 0.8 for goal
fat_loss, tdee * 1.1 for goal body_building, tdee for every other or
missing goal value. -/
def claimTargetCal (tdee : ℚ) (goal : Option String) : ℚ :=
  if goal = some "fat_loss" then tdee * 0.8
  else if goal = some "body_building" then tdee * 1.1
  else tdee

lemma lookup_mult_eq_claimMult (act : Option String) :
    (ACTIVITY_MULT.lookup (act.getD "moderate")).getD 1.55 = claimMult act := by
  cases act with
  | none => simp [ACTIVITY_MULT, List.lookup, claimMult]
  | some s =>
    simp only [Option.getD_some, claimMult]
    by_cases h1 : s = "sedentary"
    · subst h1; simp [ACTIVITY_MULT, List.lookup]
    · by_cases h2 : s = "light"
      · subst h2; simp [ACTIVITY_MULT, List.lookup]
      · by_cases h3 : s = "moderate"
        · subst h3; simp [ACTIVITY_MULT, List.lookup]
        · by_cases h4 : s = "active"
          · subst h4; simp [ACTIVITY_MULT, List.lookup]
          · have b1 : (s == "sedentary") = false := by simp [h1]
            have b2 : (s == "light") = false := by simp [h2]
            have b3 : (s == "moderate") = false := by simp [h3]
            have b4 : (s == "active") = false := by simp [h4]
            simp [ACTIVITY_MULT, List.lookup, b1, b2, b3, b4, h1, h2, h3, h4]

lemma calc_tdee_eq_claim (p : Profile) :
    calc_tdee p = calc_bmr p * claimMult p.activity := by
  rw [calc_tdee, lookup_mult_eq_claimMult]

lemma calc_target_cal_eq_claim (p : Profile) :
    calc_target_cal p = claimTargetCal (calc_tdee p) p.goal := by
  have d1 : ("maintenance" : String) ≠ "fat_loss" := by decide
  have d2 : ("maintenance" : String) ≠ "body_building" := by decide
  cases hg : p.goal with
  | none => simp [calc_target_cal, claimTargetCal, hg, d1, d2]
  | some s =>
    by_cases h1 : s = "fat_loss"
    · subst h1; simp [calc_target_cal, claimTargetCal, hg]
    · by_cases h2 : s = "body_building"
      · subst h2; simp [calc_target_cal, claimTargetCal, hg, h1]
      · simp [calc_target_cal, claimTargetCal, hg, h1, h2]

/-- C3: calc_targets is a total function of the profile (it is defined
for every Profile value, so it never fails); its tdee field is the
rounded product of the bmr with the activity multiplier (sedentary
1.2, light 1.375, moderate 1.55, active 1.725, any other or missing
activity 1.55), and its calories field is the rounded goal adjustment
of that tdee (fat_loss tdee * 0.8, body_building tdee * 1.1, anything
else tdee). -/
theorem calc_targets_activity_goal_spec (p : Profile) :
    (calc_targets p).tdee = round1 (calc_bmr p * claimMult p.activity) ∧
    (calc_targets p).calories =
      round1 (claimTargetCal (calc_bmr p * claimMult p.activity) p.goal) := by
  have hm := calc_tdee_eq_claim p
  constructor
  · simp [calc_targets, hm]
  · simp [calc_targets, calc_target_cal_eq_claim, hm]

lemma round1_nonneg {x : ℚ} (h : 0 ≤ x) : 0 ≤ round1 x := by
  have h1 : (0 : ℚ) ≤ 10 * x + 1 / 2 := by linarith
  have h2 : (0 : ℤ) ≤ ⌊(10 * x + 1 / 2 : ℚ)⌋ := Int.floor_nonneg.mpr h1
  have h3 : (0 : ℚ) ≤ (⌊(10 * x + 1 / 2 : ℚ)⌋ : ℚ) := by exact_mod_cast h2
  rw [round1]
  exact div_nonneg h3 (by norm_num)

/-- The worked example profile with a negative protein factor: the
calorie target stays positive but the protein output is negative. -/
def profileC4 : Profile :=
  { profileC1 with protein_factor := some (-1) }

lemma calc_target_cal_profileC4 : calc_target_cal profileC4 = 2545.875 := by
  have hlow : pyLower "male" = "male" := by decide
  have hne1 : ("maintenance" : String) ≠ "fat_loss" := by decide
  have hne2 : ("maintenance" : String) ≠ "body_building" := by decide
  have hact : profileC4.activity = some "moderate" := rfl
  have hgoal : profileC4.goal = some "maintenance" := rfl
  have hbmr : calc_bmr profileC4 = 1642.5 := by
    norm_num [calc_bmr, profileC4, profileC1, hlow]
  have hmult : (ACTIVITY_MULT.lookup "moderate").getD 1.55 = 1.55 := by
    simp [ACTIVITY_MULT, List.lookup]
  have htdee : calc_tdee profileC4 = 2545.875 := by
    simp only [calc_tdee, hact, Option.getD_some, hmult, hbmr]
    norm_num
  simp only [calc_target_cal, hgoal, Option.getD_some, htdee]
  simp [hne1, hne2]

/-- C4 counterexample: the claim asserts that weight_kg ≥ 0 and a
nonnegative calorie target force protein, carbs and fats to be
nonnegative, but a profile with protein_factor -1 and weight 70 has a
positive calorie target and a protein output of -70. -/
theorem calc_targets_negative_protein_counterexample :
    0 ≤ profileC4.weight_kg ∧ 0 ≤ calc_target_cal profileC4 ∧
      (calc_targets profileC4).protein < 0 := by
  refine ⟨by norm_num [profileC4, profileC1], ?_, ?_⟩
  · rw [calc_target_cal_profileC4]; norm_num
  · have hpf : profileC4.protein_factor = some (-1) := rfl
    have hw : profileC4.weight_kg = (70 : ℚ) := rfl
    simp only [calc_targets, hpf, hw, Option.getD_some]
    norm_num [round1]

/-- C4 amended: when weight_kg is nonnegative, the computed calorie
target is nonnegative and additionally the protein factor (default
2.0) is nonnegative, the protein, carbs and fats outputs of
calc_targets are all nonnegative.  The protein factor hypothesis is
needed: a negative factor yields a negative protein output. -/
theorem calc_targets_macros_nonneg (p : Profile)
    (hw : 0 ≤ p.weight_kg) (hpf : 0 ≤ p.protein_factor.getD 2.0)
    (hcal : 0 ≤ calc_target_cal p) :
    0 ≤ (calc_targets p).protein ∧ 0 ≤ (calc_targets p).carbs ∧
      0 ≤ (calc_targets p).fats := by
  refine ⟨?_, ?_, ?_⟩ <;> simp only [calc_targets]
  · exact round1_nonneg (mul_nonneg hpf hw)
  · exact round1_nonneg (div_nonneg (mul_nonneg hcal (by norm_num)) (by norm_num))
  · exact round1_nonneg (div_nonneg (mul_nonneg hcal (by norm_num)) (by norm_num))

lemma calc_target_cal_profileC1 : calc_target_cal profileC1 = 2545.875 := by
  have hlow : pyLower "male" = "male" := by decide
  have hne1 : ("maintenance" : String) ≠ "fat_loss" := by decide
  have hne2 : ("maintenance" : String) ≠ "body_building" := by decide
  have hact : profileC1.activity = some "moderate" := rfl
  have hgoal : profileC1.goal = some "maintenance" := rfl
  have hbmr : calc_bmr profileC1 = 1642.5 := by
    norm_num [calc_bmr, profileC1, hlow]
  have hmult : (ACTIVITY_MULT.lookup "moderate").getD 1.55 = 1.55 := by
    simp [ACTIVITY_MULT, List.lookup]
  have htdee : calc_tdee profileC1 = 2545.875 := by
    simp only [calc_tdee, hact, Option.getD_some, hmult, hbmr]
    norm_num
  simp only [calc_target_cal, hgoal, Option.getD_some, htdee]
  simp [hne1, hne2]

/-- C4 witness: the amended nonnegativity theorem applied to the
worked example profile. -/
theorem calc_targets_macros_nonneg_witness :
    0 ≤ profileC1.weight_kg ∧ 0 ≤ profileC1.protein_factor.getD 2.0 ∧
      0 ≤ calc_target_cal profileC1 ∧
      (0 ≤ (calc_targets profileC1).protein ∧
        0 ≤ (calc_targets profileC1).carbs ∧
        0 ≤ (calc_targets profileC1).fats) := by
  have hcal : 0 ≤ calc_target_cal profileC1 := by
    rw [calc_target_cal_profileC1]; norm_num
  have hw : 0 ≤ profileC1.weight_kg := by norm_num [profileC1]
  have hpf : 0 ≤ profileC1.protein_factor.getD 2.0 := by norm_num [profileC1]
  exact ⟨hw, hpf, hcal, calc_targets_macros_nonneg profileC1 hw hpf hcal⟩

/-- The filesystem state the program manipulates: the set of existing
user directories and, per user, the optional contents of profile.json,
meals.csv and weights.csv.  None models a missing file. -/
structure FS where
  dirs : List String
  profiles : String → Option Profile
  meals : String → Option (List MealRow)
  weights : String → Option (List WeightRow)

/-- Writing one per-user entry of a store. -/
def updStore {α : Type} (f : String → Option α) (u : String) (x : α) :
    String → Option α :=
  fun v => if v = u then some x else f v

/-- The default record written into profile.json by init_user_files at
sign-up (the dictionary named default in the code). -/
def default_profile (username : String) : Profile :=
  { name := some username
    sex := some "male"
    age := 25
    height_cm := 170
    weight_kg := 70
    activity := some "moderate"
    goal := some "maintenance"
    protein_factor := some 2.0 }

/-- init_user_files from src/main_cli.py lines 29 to 48: creates an
empty meals table, an empty weights table and the default profile,
each only when the corresponding file does not exist yet. -/
def init_user_files (fs : FS) (username : String) : FS :=
  let fs1 := if (fs.meals username).isNone then
      { fs with meals := updStore fs.meals username [] } else fs
  let fs2 := if (fs1.weights username).isNone then
      { fs1 with weights := updStore fs1.weights username [] } else fs1
  if (fs2.profiles username).isNone then
    { fs2 with profiles := updStore fs2.profiles username (default_profile username) }
  else fs2

/-- load_profile from src/main_cli.py lines 50 to 53: reads
profile.json.  None models the FileNotFoundError raised by open when
the file does not exist. -/
def load_profile (fs : FS) (username : String) : Option Profile :=
  fs.profiles username

/-- save_profile from src/main_cli.py lines 55 to 58: overwrites
profile.json with the given record. -/
def save_profile (fs : FS) (username : String) (profile : Profile) : FS :=
  { fs with profiles := updStore fs.profiles username profile }

/-- log_meal from src/main_cli.py lines 106 to 128: appends one row to
meals.csv, creating the file when it is absent.  The date, time and
meal fields of the row are inputs. -/
def log_meal (fs : FS) (username : String) (row : MealRow) : FS :=
  { fs with
    meals := updStore fs.meals username ((fs.meals username).getD [] ++ [row]) }

/-- log_weight from src/main_cli.py lines 158 to 168: appends one row
to weights.csv, overwrites the weight_kg field of the in-memory
profile with the logged value and persists the updated profile.  The
date, time, logged weight and note are inputs. -/
def log_weight (fs : FS) (username : String) (profile : Profile)
    (w : ℚ) (d t note : String) : FS × Profile :=
  let entry : WeightRow := { date := d, time := t, weight_kg := w, note := note }
  let fs1 := { fs with
    weights := updStore fs.weights username ((fs.weights username).getD [] ++ [entry]) }
  let profile1 := { profile with weight_kg := w }
  (save_profile fs1 username profile1, profile1)

/-- The consumed totals printed by the daily summary. -/
structure Totals where
  calories : ℚ
  protein : ℚ
  carbs : ℚ
  fats : ℚ
deriving DecidableEq

def sumCalories (df : List MealRow) : ℚ := (df.map MealRow.calories).sum

def sumProtein (df : List MealRow) : ℚ := (df.map MealRow.protein).sum

def sumCarbs (df : List MealRow) : ℚ := (df.map MealRow.carbs).sum

def sumFats (df : List MealRow) : ℚ := (df.map MealRow.fats).sum

/-- The totals computed by show_daily_summary, src/main_cli.py lines
130 to 156: the rows whose date equals the given day are selected;
when none exist the totals are set to zero, otherwise to the column
sums of the selected rows. -/
def summary_totals (df : List MealRow) (today : String) : Totals :=
  let today_df := df.filter (fun r => r.date == today)
  if today_df.isEmpty then { calories := 0, protein := 0, carbs := 0, fats := 0 }
  else { calories := sumCalories today_df, protein := sumProtein today_df,
         carbs := sumCarbs today_df, fats := sumFats today_df }

/-- The consumed totals reported by show_daily_summary for a user:
None when meals.csv does not exist, in which case the function prints
a message and reports no totals. -/
def show_daily_summary_totals (fs : FS) (username : String) (today : String) :
    Option Totals :=
  (fs.meals username).map (fun df => summary_totals df today)

/-- sign_in from src/main_cli.py lines 211 to 218: the entered name is
stripped and lower-cased; when no directory of that name exists the
function prints an error and returns None, otherwise it returns the
username.  It never writes to the filesystem. -/
def sign_in (fs : FS) (rawInput : String) : Option String × FS :=
  let username := pyLower (pyStrip rawInput)
  if username ∈ fs.dirs then (some username, fs) else (none, fs)

/-- The state before any user has signed up. -/
def emptyFS : FS :=
  { dirs := []
    profiles := fun _ => none
    meals := fun _ => none
    weights := fun _ => none }

/-- C5: saving a profile and then loading it for the same username
returns exactly the record that was saved. -/
theorem save_load_profile_roundtrip (fs : FS) (u : String) (p : Profile) :
    load_profile (save_profile fs u p) u = some p := by
  simp [load_profile, save_profile, updStore]

/-- C6 counterexample: in the initial state no profile file exists for
alice, and load_profile yields None, the model of the FileNotFoundError
raised by open, not the documented default record. -/
theorem load_profile_missing_file_counterexample :
    load_profile emptyFS "alice" = none ∧
      load_profile emptyFS "alice" ≠ some (default_profile "alice") := by
  exact ⟨rfl, by simp [load_profile, emptyFS]⟩

/-- C6 amended: load_profile alone fails when no profile file exists,
modelled by returning None; it is init_user_files, run at sign-up,
that writes the documented default record when the file is absent, so
loading after that initialization returns the default profile. -/
theorem load_profile_after_init_default (fs : FS) (u : String)
    (h : fs.profiles u = none) :
    load_profile (init_user_files fs u) u = some (default_profile u) := by
  simp only [load_profile, init_user_files]
  split_ifs <;> simp_all [updStore]

/-- C6 witness: loading after initialization in the initial state
returns the default record for alice. -/
theorem load_profile_after_init_default_witness :
    emptyFS.profiles "alice" = none ∧
      load_profile (init_user_files emptyFS "alice") "alice" =
        some (default_profile "alice") :=
  ⟨rfl, load_profile_after_init_default emptyFS "alice" rfl⟩

/-- C7: log_weight appends exactly one row with the given date, time,
weight and note to the weights table of the user, sets the weight_kg
field of the returned profile to the logged value, and persists that
updated profile for the user. -/
theorem log_weight_appends_and_updates (fs : FS) (u : String) (p : Profile)
    (w : ℚ) (d t note : String) :
    (log_weight fs u p w d t note).1.weights u =
        some ((fs.weights u).getD [] ++
          [{ date := d, time := t, weight_kg := w, note := note }]) ∧
      (log_weight fs u p w d t note).2.weight_kg = w ∧
      (log_weight fs u p w d t note).1.profiles u =
        some (log_weight fs u p w d t note).2 := by
  refine ⟨?_, rfl, ?_⟩ <;> simp [log_weight, save_profile, updStore]

/-- C8: when meals.csv exists, the consumed totals reported by the
daily summary are exactly the column-wise sums of calories, protein,
carbs and fats over the rows whose date equals the current day, and
they are all zero when no row has the current date. -/
theorem daily_summary_totals_eq_sums (fs : FS) (u today : String)
    (df : List MealRow) (h : fs.meals u = some df) :
    show_daily_summary_totals fs u today =
        some { calories := sumCalories (df.filter (fun r => r.date == today)),
               protein := sumProtein (df.filter (fun r => r.date == today)),
               carbs := sumCarbs (df.filter (fun r => r.date == today)),
               fats := sumFats (df.filter (fun r => r.date == today)) } ∧
      (df.filter (fun r => r.date == today) = [] →
        show_daily_summary_totals fs u today =
          some { calories := 0, protein := 0, carbs := 0, fats := 0 }) := by
  constructor
  · simp only [show_daily_summary_totals, h, Option.map_some', summary_totals]
    by_cases he : (df.filter (fun r => r.date == today)).isEmpty
    · rw [if_pos he]
      have hnil : df.filter (fun r => r.date == today) = [] := by
        simpa [List.isEmpty_iff] using he
      simp [hnil, sumCalories, sumProtein, sumCarbs, sumFats]
    · rw [if_neg he]
  · intro hf
    simp only [show_daily_summary_totals, h, Option.map_some', summary_totals, hf,
      List.isEmpty_nil, if_true]

/-- A sample meal row used to instantiate the daily summary claim. -/
def mealRow1 : MealRow :=
  { date := "2026-10-12", time := "08:00:00", meal_type := "breakfast",
    meal_desc := "eggs", calories := 300, protein := 20, carbs := 2, fats := 22 }

/-- A state whose meals table for alice holds the sample row. -/
def fsC8 : FS :=
  { emptyFS with meals := fun v => if v = "alice" then some [mealRow1] else none }

/-- C8 witness: the daily summary theorem applied to a one-row meals
table for alice. -/
theorem daily_summary_totals_eq_sums_witness :
    fsC8.meals "alice" = some [mealRow1] ∧
      show_daily_summary_totals fsC8 "alice" "2026-10-12" =
        some { calories := sumCalories ([mealRow1].filter (fun r => r.date == "2026-10-12")),
               protein := sumProtein ([mealRow1].filter (fun r => r.date == "2026-10-12")),
               carbs := sumCarbs ([mealRow1].filter (fun r => r.date == "2026-10-12")),
               fats := sumFats ([mealRow1].filter (fun r => r.date == "2026-10-12")) } :=
  ⟨rfl, (daily_summary_totals_eq_sums fsC8 "alice" "2026-10-12" [mealRow1] rfl).1⟩

/-- C9: signing in with a name that was never created, so that after
the strip and lower-case normalization no directory of that name
exists, returns None, meaning nobody is signed in and the menu loop
continues at the top menu, and it leaves the whole filesystem state,
directories and files alike, unchanged. -/
theorem sign_in_unknown_user_fails (fs : FS) (raw : String)
    (h : pyLower (pyStrip raw) ∉ fs.dirs) :
    sign_in fs raw = (none, fs) := by
  simp [sign_in, h]

/-- C9 witness: signing in as bob in the initial state fails and
leaves the state unchanged. -/
theorem sign_in_unknown_user_fails_witness :
    pyLower (pyStrip "bob") ∉ emptyFS.dirs ∧
      sign_in emptyFS "bob" = (none, emptyFS) := by
  have h : pyLower (pyStrip "bob") ∉ emptyFS.dirs := by simp [emptyFS]
  exact ⟨h, sign_in_unknown_user_fails emptyFS "bob" h⟩

/-- C10: log_weight changes only the weight_kg field of the profile:
name, sex, age, height_cm, activity, goal and protein_factor are
unchanged in the returned in-memory record, and the record it persists
for the user is exactly the input profile with only weight_kg
overwritten. -/
theorem log_weight_frame (fs : FS) (u : String) (p : Profile)
    (w : ℚ) (d t note : String) :
    (log_weight fs u p w d t note).2.name = p.name ∧
      (log_weight fs u p w d t note).2.sex = p.sex ∧
      (log_weight fs u p w d t note).2.age = p.age ∧
      (log_weight fs u p w d t note).2.height_cm = p.height_cm ∧
      (log_weight fs u p w d t note).2.activity = p.activity ∧
      (log_weight fs u p w d t note).2.goal = p.goal ∧
      (log_weight fs u p w d t note).2.protein_factor = p.protein_factor ∧
      (log_weight fs u p w d t note).1.profiles u =
        some { p with weight_kg := w } := by
  refine ⟨rfl, rfl, rfl, rfl, rfl, rfl, rfl, ?_⟩
  simp [log_weight, save_profile, updStore]
